import Mathlib

/-! Specification-versus-code development.

Verification of the auto-finances ingestion pipeline.

Shallow embedding of the repository's three source files:
* `Server API Scripts/models.py` — the `Transaction.calculate_points` method and
  the `Multiplier` reward table;
* `Server API Scripts/main.py` — the `/upload` endpoint `upload_csv` (row parsing,
  duplicate check, commit semantics of the SQLAlchemy session);
* `app/watcher.py` — the inbox poller: `validate_csv`, `process_file` and the
  poll loop.

Python strings are modelled as Lean `String` restricted to ASCII (the data the
pipeline handles); SQL numerics and Python floats are modelled as exact
rationals `ℚ`; nullable columns are `Option`; a raised exception is an
`Except.error` carrying the message.
-/

set_option autoImplicit false

deriving instance DecidableEq for Except

namespace AutoFinances

/-! ### Python string primitives (ASCII model) -/

/-- Model of Python `str.upper()` on ASCII text. -/
def pyUpper (s : String) : String := String.mk (s.toList.map Char.toUpper)

/-- Model of Python `str.lower()` on ASCII text. -/
def pyLower (s : String) : String := String.mk (s.toList.map Char.toLower)

/-- Word character of the `re` module's `\w` class, ASCII range: `[A-Za-z0-9_]`. -/
def isWordChar (c : Char) : Bool := c.isAlphanum || c = '_'

/-- If `w` is a literal prefix of `s`, return the remainder of `s` after it. -/
def matchEnds : List Char → List Char → Option (List Char)
  | [], rest => some rest
  | _ :: _, [] => none
  | c :: w, d :: s => if c = d then matchEnds w s else none

/-- A `\b` word boundary holds before the current position: start of string or a
non-word character immediately before. -/
def boundaryBefore : Option Char → Bool
  | none => true
  | some c => !(isWordChar c)

/-- A `\b` word boundary holds after the match: end of string or a non-word
character immediately after. -/
def boundaryAfterOk : List Char → Bool
  | [] => true
  | c :: _ => !(isWordChar c)

/-- The word `w` matches at the current position of `s` with `\b` boundaries on
both sides; `prev` is the character immediately before the position. -/
def hereMatch (w s : List Char) (prev : Option Char) : Bool :=
  boundaryBefore prev &&
    match matchEnds w s with
    | some rest => boundaryAfterOk rest
    | none => false

/-- Scan of `s` for a `\b w \b` match, tracking the previous character. -/
def wholeWordSearch (w : List Char) : Option Char → List Char → Bool
  | prev, [] => hereMatch w [] prev
  | prev, c :: s => hereMatch w (c :: s) prev || wholeWordSearch w (some c) s

/-- Model of `re.search(r'\b<word>\b', s) is not None` for a word made of word
characters (as `AUTO` and `PAY` are). -/
def containsWholeWord (word s : String) : Bool :=
  wholeWordSearch word.toList none s.toList

/-- The `needle` occurs as a contiguous substring of the character list. -/
def listContainsSub (needle : List Char) : List Char → Bool
  | [] => needle.isEmpty
  | c :: rest => needle.isPrefixOf (c :: rest) || listContainsSub needle rest

/-- Model of Python `needle in hay` for strings (substring containment). -/
def strContains (hay needle : String) : Bool :=
  listContainsSub needle.toList hay.toList

/-! ### `models.py`: reward table and points calculation -/

/-- Row of the `multipliers` table: `(category, card)` keyed integer factor
(`models.py` lines 72-80). -/
structure Multiplier where
  category : String
  card : String
  multiplier : ℤ
deriving DecidableEq

/-- Calendar date, the value produced by `datetime.date`. -/
structure CalDate where
  year : ℕ
  month : ℕ
  day : ℕ
deriving DecidableEq

/-- Row of the `transactions` table (`models.py` lines 35-49).  The surrogate
`id` and the raw `multiplier_id` foreign key are omitted: the pipeline never
reads them.  `amount` is a non-nullable column, always set by the ingestion
path, hence plain `ℚ`; `points` and the `multiplier` relationship start as
`none` on a freshly constructed ORM object. -/
structure Transaction where
  transaction_date : CalDate
  description : String
  amount : ℚ
  category : String
  card : String
  user_id : ℕ
  points : Option ℚ
  multiplier : Option Multiplier
deriving DecidableEq

/-- Model of Python 3 `round()` to the nearest integer on the exact value:
round half to even (banker's rounding), which is what `round(float(amount))`
computes for amounts with two decimal digits.  Written on the numerator and
denominator of the reduced rational: `f = ⌊q⌋` is the floor division
`num.fdiv den`, and the fractional part `q - f = (num - f * den) / den` is
compared against `1/2` by comparing `2 * (num - f * den)` against `den`. -/
def roundHalfEven (q : ℚ) : ℤ :=
  let f : ℤ := Int.fdiv q.num (q.den : ℤ)
  let rem2 : ℤ := 2 * (q.num - f * (q.den : ℤ))
  if rem2 < (q.den : ℤ) then f
  else if (q.den : ℤ) < rem2 then f + 1
  else if f % 2 = 0 then f else f + 1

/-- The `db_session.query(Multiplier).filter_by(category=..., card=...).first()`
lookup: first row of the table matching both keys. -/
def lookupMultiplier (mults : List Multiplier) (cat card : String) : Option Multiplier :=
  mults.find? (fun m => m.category == cat && m.card == card)

/-- The auto-pay exclusion of `calculate_points` (`models.py` lines 52-53):
uppercase the description and require whole-word regex matches of both `AUTO`
and `PAY`. -/
def isAutoPay (description : String) : Bool :=
  let desc := pyUpper description
  containsWholeWord "AUTO" desc && containsWholeWord "PAY" desc

/-- The final guarded assignment of `calculate_points` (`models.py` lines
66-67): points are written only when a multiplier row is attached and its
integer factor is truthy, i.e. nonzero.  (`self.amount is not None` always
holds here: `amount` is a non-nullable column.) -/
def applyMultiplier (t : Transaction) : Transaction :=
  match t.multiplier with
  | some m =>
    if m.multiplier ≠ 0 then
      { t with points := some ((roundHalfEven t.amount * m.multiplier : ℤ) : ℚ) }
    else t
  | none => t

/-- Method `Transaction.calculate_points(db_session)` (`models.py` lines 51-67).
`db` is `none` when no session is passed; the emptiness tests on `category`
and `card` model Python truthiness of the string columns.  When the lookup
runs and finds no row the method writes `multiplier = None`, `points = None`
and returns early. -/
def calculate_points (db : Option (List Multiplier)) (t : Transaction) : Transaction :=
  if isAutoPay t.description then { t with points := none }
  else
    match db with
    | some mults =>
      if t.category ≠ "" ∧ t.card ≠ "" then
        match lookupMultiplier mults t.category t.card with
        | none => { t with multiplier := none, points := none }
        | some m => applyMultiplier { t with multiplier := some m }
      else applyMultiplier t
    | none => applyMultiplier t

/-! ### `main.py`: the `/upload` endpoint -/

/-- Python whitespace stripped by `str.strip()` (ASCII range). -/
def isPySpace (c : Char) : Bool :=
  c = ' ' || c = '\t' || c = '\n' || c = '\r' || c = '\x0b' || c = '\x0c'

/-- Model of Python `str.strip()` on ASCII text. -/
def pyStrip (s : String) : String :=
  String.mk (((s.toList.dropWhile isPySpace).reverse.dropWhile isPySpace).reverse)

/-- Split a character list on a separator character; like Python
`str.split(sep)`, the empty input yields one empty field. -/
def splitOnChar (sep : Char) : List Char → List (List Char)
  | [] => [[]]
  | c :: rest =>
    if c = sep then [] :: splitOnChar sep rest
    else
      match splitOnChar sep rest with
      | [] => [[c]]
      | g :: gs => (c :: g) :: gs

/-- Decimal digit string to its numeric value. -/
def digitsVal (cs : List Char) : ℕ :=
  cs.foldl (fun a c => a * 10 + (c.toNat - 48)) 0

/-- Every character is an ASCII decimal digit. -/
def allDigits (cs : List Char) : Bool := cs.all Char.isDigit

/-- Gregorian leap year, as `datetime` uses. -/
def isLeap (y : ℕ) : Bool := (y % 4 == 0 && !(y % 100 == 0)) || y % 400 == 0

/-- Days in a month of the proleptic Gregorian calendar. -/
def daysInMonth (y m : ℕ) : ℕ :=
  if m = 2 then (if isLeap y then 29 else 28)
  else if m = 4 ∨ m = 6 ∨ m = 9 ∨ m = 11 then 30 else 31

/-- Model of `datetime.date.fromisoformat` on the canonical `YYYY-MM-DD`
format the pipeline produces: four digit year, two digit month and day,
a valid calendar date; anything else raises `ValueError`, modelled as
`none`. -/
def parseDate (s : String) : Option CalDate :=
  match splitOnChar '-' s.toList with
  | [y, m, d] =>
    if y.length = 4 ∧ m.length = 2 ∧ d.length = 2 ∧
        allDigits y ∧ allDigits m ∧ allDigits d then
      let yn := digitsVal y
      let mn := digitsVal m
      let dn := digitsVal d
      if 1 ≤ mn ∧ mn ≤ 12 ∧ 1 ≤ dn ∧ dn ≤ daysInMonth yn mn then
        some ⟨yn, mn, dn⟩
      else none
    else none
  | _ => none

/-- Unsigned part of a Python `float(...)` literal: digits with at most one
decimal point, at least one digit overall.  The value is built as a single
quotient of integers. -/
def parseUnsigned (cs : List Char) : Option ℚ :=
  match splitOnChar '.' cs with
  | [ip] =>
    if ip ≠ [] ∧ allDigits ip then some ((digitsVal ip : ℤ) : ℚ) else none
  | [ip, fp] =>
    if (ip ≠ [] ∨ fp ≠ []) ∧ allDigits ip ∧ allDigits fp then
      some (Rat.divInt (digitsVal ip * ((10 ^ fp.length : ℕ) : ℤ) + digitsVal fp)
        ((10 ^ fp.length : ℕ) : ℤ))
    else none
  | _ => none

/-- Model of Python `float(row["amount"])` for the plain decimal literals the
pipeline produces (optional sign, digits, optional decimal point; surrounding
whitespace stripped).  `inf`/`nan`, exponents and underscore separators are
outside the modelled input language.  A failure raises `ValueError`, modelled
as `none`. -/
def parseFloat (s : String) : Option ℚ :=
  match (pyStrip s).toList with
  | '-' :: rest => (parseUnsigned rest).map (fun q => -q)
  | '+' :: rest => parseUnsigned rest
  | cs => parseUnsigned cs

/-- One row as produced by `csv.DictReader`: each canonical column either
present with its string value, or absent/`None` (missing header column or a
short row), in which case the row construction in `upload_csv` raises. -/
structure RawRow where
  transaction_date : Option String
  description : Option String
  amount : Option String
  category : Option String
  card : Option String
deriving DecidableEq

/-- The `Transaction(...)` construction of `upload_csv` (`main.py` lines
176-184): parse the date, strip the text fields, convert the amount, attach
the current user's id.  Any failure (missing field, bad date, non-numeric
amount) raises, modelled as `none`. -/
def parseRow (uid : ℕ) (r : RawRow) : Option Transaction :=
  match r.transaction_date, r.description, r.amount, r.category, r.card with
  | some d, some desc, some a, some cat, some card =>
    match parseDate d, parseFloat a with
    | some dt, some amt =>
      some { transaction_date := dt, description := pyStrip desc, amount := amt,
             category := pyStrip cat, card := pyStrip card, user_id := uid,
             points := none, multiplier := none }
    | _, _ => none
  | _, _, _, _, _ => none

/-- The duplicate query of `upload_csv` (`main.py` lines 190-195): an existing
row matches the candidate `a` exactly on `(transaction_date, description,
amount, card)`.  `category`, `points` and `user_id` are not part of the
filter. -/
def dedupMatch (a t : Transaction) : Bool :=
  decide (t.transaction_date = a.transaction_date) &&
  decide (t.description = a.description) &&
  decide (t.amount = a.amount) &&
  decide (t.card = a.card)

/-- The row loop of `upload_csv` (`main.py` lines 174-205).  `store` is the
committed transaction table; because `SessionLocal` is created with
`autoflush=False` (`main.py` line 30), the duplicate query only sees `store`,
never the rows pending in `pending` that were added earlier in the same
request.  A row that fails to parse raises `HTTPException`, modelled as
`Except.error`. -/
def uploadRows (mults : List Multiplier) (store : List Transaction) (uid : ℕ) :
    List RawRow → List Transaction → ℕ → ℕ →
    Except String (List Transaction × ℕ × ℕ)
  | [], pending, added, skipped => .ok (store ++ pending, added, skipped)
  | r :: rs, pending, added, skipped =>
    match parseRow uid r with
    | none => .error "Row parsing failed"
    | some tx0 =>
      let tx := calculate_points (some mults) tx0
      if (store.find? (dedupMatch tx)).isSome then
        uploadRows mults store uid rs pending added (skipped + 1)
      else
        uploadRows mults store uid rs (pending ++ [tx]) (added + 1) skipped

/-- The `/upload` endpoint `upload_csv` (`main.py` lines 158-214) for an
already-decoded list of rows: on success returns the committed table together
with the `added` and `skipped` counters of the JSON response; on a row-parse
failure the whole request errors. -/
def upload_csv (mults : List Multiplier) (store : List Transaction) (uid : ℕ)
    (rows : List RawRow) : Except String (List Transaction × ℕ × ℕ) :=
  uploadRows mults store uid rows [] 0 0

/-- The transaction table after a call of `upload_csv`: `db.commit()`
(`main.py` line 207) runs only when no row raised; on `HTTPException` the
`get_db` dependency closes the session without committing, so the pending
inserts are discarded and the table is unchanged. -/
def storeAfter (mults : List Multiplier) (store : List Transaction) (uid : ℕ)
    (rows : List RawRow) : List Transaction :=
  match upload_csv mults store uid rows with
  | .ok (s, _, _) => s
  | .error _ => store

/-- The `added` counter of a successful upload response. -/
def resAdded : Except String (List Transaction × ℕ × ℕ) → Option ℕ
  | .ok (_, a, _) => some a
  | .error _ => none

/-- The `skipped` counter of a successful upload response. -/
def resSkipped : Except String (List Transaction × ℕ × ℕ) → Option ℕ
  | .ok (_, _, k) => some k
  | .error _ => none

/-- The committed table of a successful upload response. -/
def resStore : Except String (List Transaction × ℕ × ℕ) → Option (List Transaction)
  | .ok (s, _, _) => some s
  | .error _ => none

/-! ### `watcher.py`: validator, file lifecycle and poller -/

/-- Collapse the line terminators Python `str.splitlines()` recognizes on
ASCII text (`\n`, `\r`, `\r\n`) into a single `\n`. -/
def normEols : List Char → List Char
  | [] => []
  | '\r' :: '\n' :: rest => '\n' :: normEols rest
  | '\r' :: rest => '\n' :: normEols rest
  | c :: rest => c :: normEols rest

/-- Split on `\n` terminators; a trailing terminator produces no extra empty
line. -/
def splitNl : List Char → List Char → List (List Char)
  | [], acc => [acc.reverse]
  | '\n' :: rest, acc => acc.reverse :: (if rest.isEmpty then [] else splitNl rest [])
  | c :: rest, acc => splitNl rest (c :: acc)

/-- Model of Python `str.splitlines()` on ASCII text: the empty string
produces no lines at all. -/
def splitlines (s : String) : List String :=
  match s.toList with
  | [] => []
  | c :: cs => (splitNl (normEols (c :: cs)) []).map String.mk

/-- First element of `splitlines`, i.e. `content.splitlines()[0]` when it
exists. -/
def firstLine (s : String) : Option String := (splitlines s).head?

/-- The `STANDARD_HEADERS` list (`watcher.py` line 20). -/
def STANDARD_HEADERS : List String :=
  ["transaction_date", "description", "amount", "category", "card"]

/-- The header fields `csv.DictReader(content.splitlines()).fieldnames`: the
first line split on commas (the pipeline's headers are unquoted), or `None`
when the input has no lines. -/
def fieldnames (content : String) : Option (List String) :=
  (firstLine content).map (fun l => (splitOnChar ',' l.toList).map String.mk)

/-- Function `validate_csv` (`watcher.py` lines 42-44):
`set(STANDARD_HEADERS).issubset(set(reader.fieldnames))`.  When `fieldnames`
is `None` (input without lines), `set(None)` raises `TypeError`, modelled as
`none`; otherwise the boolean subset test. -/
def validate_csv (content : String) : Option Bool :=
  (fieldnames content).map (fun fs => STANDARD_HEADERS.all (fun h => fs.contains h))

/-- Position view of `Path(name).stem`: the file name without its final suffix; the suffix is
the part from the last dot when that dot is neither the first nor the last
character. -/
def lastDotIdx (cs : List Char) : Option ℕ :=
  match cs with
  | [] => none
  | c :: rest =>
    match lastDotIdx rest with
    | some i => some (i + 1)
    | none => if c = '.' then some 0 else none

/-- Value of `Path(name).stem` for a bare file name. -/
def stem (name : String) : String :=
  match lastDotIdx name.toList with
  | some i =>
    if 0 < i ∧ i < name.toList.length - 1 then String.mk (name.toList.take i) else name
  | none => name

/-- Characters before the first underscore: `s.split("_")[0]`. -/
def beforeUnderscore (s : String) : String :=
  String.mk (s.toList.takeWhile (fun c => c ≠ '_'))

/-- The card label derived from the file name (`watcher.py` line 51):
`file_path.stem.split("_")[0].lower()`. -/
def cardLabel (name : String) : String := pyLower (beforeUnderscore (stem name))

/-- The completion marker name (`watcher.py` line 52):
`file_path.with_suffix(".processed")`, a sibling file sharing the stem. -/
def lockName (name : String) : String := stem name ++ ".processed"

/-- One line of `watcher_log.csv` (`log_event`, `watcher.py` lines 46-48):
timestamp, file name, status, message. -/
structure LogEntry where
  time : ℕ
  filename : String
  status : String
  message : String
deriving DecidableEq

/-- The filesystem and log state the watcher manipulates: the three
directories as name-content maps, the set of completion-marker files sitting
next to the inbox files, the append-only log, and the trace of requests made
to the external normalization service (the observable effect at the trust
boundary). -/
structure WatcherState where
  inbox : List (String × String)
  processedDir : List (String × String)
  failedDir : List (String × String)
  markers : List String
  log : List LogEntry
  calls : List (String × String)
deriving DecidableEq

/-- Content of a file of a directory, by name. -/
def lookupFile (dir : List (String × String)) (name : String) : Option String :=
  (dir.find? (fun p => p.1 == name)).map (fun p => p.2)

/-- Remove a file from a directory (the source side of `shutil.move`). -/
def removeFile (dir : List (String × String)) (name : String) : List (String × String) :=
  dir.filter (fun p => !(p.1 == name))

/-- The pure part of the `try` block of `process_file` (`watcher.py` lines
57-74), everything before any filesystem effect: call the normalizer (`norm`
models `normalize_csv_via_ollama`, erring on a raised exception), apply the
first-line header sanity gate (`IndexError` on an empty response, then the
case-insensitive substring check), then `validate_csv`.  Returns the
normalized text or the message of the exception that the `except` arm
receives. -/
def runPipeline (norm : String → String → Except String String)
    (raw card : String) : Except String String :=
  match norm raw card with
  | .error e => .error e
  | .ok n =>
    match firstLine n with
    | none => .error "list index out of range"
    | some l =>
      if strContains (pyLower l) "transaction_date" then
        match validate_csv n with
        | some true => .ok n
        | some false => .error "Validation failed: CSV headers missing or incorrect"
        | none => .error "argument of type NoneType is not iterable"
      else .error "Ollama response missing headers"

/-- Function `process_file` (`watcher.py` lines 50-79).  `time` models the
`datetime.now()` timestamp of this run.  If the completion marker exists the
function returns at once with no effect.  Otherwise the normalized output is
written to the processed directory under a stem-plus-timestamp name, the raw
file moved there under a `raw_` prefix, the marker created and a `processed`
line logged; on any pipeline failure the raw file moves unchanged into the
failed directory and a `failed` line is logged, with no marker.  A file name
absent from the inbox is unreachable from the poller, which only submits
names it just listed. -/
def process_file (norm : String → String → Except String String) (time : ℕ)
    (s : WatcherState) (name : String) : WatcherState :=
  if s.markers.contains (lockName name) then s
  else
    match lookupFile s.inbox name with
    | none => s
    | some raw =>
      let card := cardLabel name
      let s1 := { s with calls := s.calls ++ [(raw, card)] }
      match runPipeline norm raw card with
      | .ok normalized =>
        { s1 with
          inbox := removeFile s1.inbox name,
          processedDir := s1.processedDir ++
            [(stem name ++ "_normalized_" ++ toString time ++ ".csv", normalized),
             ("raw_" ++ name, raw)],
          markers := s1.markers ++ [lockName name],
          log := s1.log ++ [⟨time, name, "processed", ""⟩] }
      | .error msg =>
        { s1 with
          inbox := removeFile s1.inbox name,
          failedDir := s1.failedDir ++ [(name, raw)],
          log := s1.log ++ [⟨time, name, "failed", msg⟩] }

/-- One poll cycle of `main` (`watcher.py` lines 90-93): submit each listed
file in turn to `process_file`. -/
def pollOver (norm : String → String → Except String String) (time : ℕ) :
    WatcherState → List String → WatcherState
  | s, [] => s
  | s, n :: ns => pollOver norm time (process_file norm time s n) ns

/-! ### Witness data: concrete inputs used to instantiate the theorems -/

/-- Transaction of the C1 witness: amount exactly `0`, category and card
matched by a multiplier row. -/
def txZeroAmount : Transaction :=
  ⟨⟨2024, 6, 1⟩, "REFUND ADJUSTMENT", 0, "Dining", "Amex", 1, none, none⟩

/-- Transaction of the C2 witness: description with whole words AUTO and
PAY. -/
def txAutoPay : Transaction :=
  ⟨⟨2024, 1, 1⟩, "Monthly Auto Pay", 100, "Payment", "Amex", 1, none, none⟩

/-- The transaction of the spec's `AUTOPAY THANK YOU` example row. -/
def txAutopayThanks : Transaction :=
  ⟨⟨2024, 3, 2⟩, "AUTOPAY THANK YOU", 250, "Payment", "Amex", 1, none, none⟩

/-- The C4 witness row. -/
def rowC4 : RawRow :=
  ⟨some "2024-04-01", some "COFFEE", some "3.25", some "Dining", some "Visa"⟩

/-- The transaction that `parseRow` builds from `rowC4` for user 7. -/
def txC4 : Transaction :=
  ⟨⟨2024, 4, 1⟩, "COFFEE", Rat.divInt 13 4, "Dining", "Visa", 7, none, none⟩

/-- First row of the spec's within-file duplicate example, category
`Dining`. -/
def rowC5a : RawRow :=
  ⟨some "2024-03-01", some "STARBUCKS", some "4.50", some "Dining", some "Amex"⟩

/-- Second row of the example: identical except category `Restaurants`. -/
def rowC5b : RawRow :=
  ⟨some "2024-03-01", some "STARBUCKS", some "4.50", some "Restaurants", some "Amex"⟩

/-- The transaction parsed from `rowC5a` for user 1. -/
def txC5a : Transaction :=
  ⟨⟨2024, 3, 1⟩, "STARBUCKS", Rat.divInt 9 2, "Dining", "Amex", 1, none, none⟩

/-- The transaction parsed from `rowC5b` for user 1. -/
def txC5b : Transaction :=
  ⟨⟨2024, 3, 1⟩, "STARBUCKS", Rat.divInt 9 2, "Restaurants", "Amex", 1, none, none⟩

/-- A row that parses cleanly, for the C8 witness. -/
def rowC8good : RawRow :=
  ⟨some "2024-03-01", some "OK STORE", some "1.00", some "A", some "B"⟩

/-- A row with a non-numeric amount, for the C8 witness. -/
def rowC8bad : RawRow :=
  ⟨some "2024-03-01", some "BAD", some "abc", some "A", some "B"⟩

/-- The C10 witness row, uploaded by user 1. -/
def rowC10 : RawRow :=
  ⟨some "2024-05-01", some "NETFLIX", some "15.49", some "Streaming", some "Visa"⟩

/-- The transaction parsed from `rowC10` for user 1. -/
def txC10 : Transaction :=
  ⟨⟨2024, 5, 1⟩, "NETFLIX", Rat.divInt 1549 100, "Streaming", "Visa", 1, none, none⟩

/-- The same purchase already persisted by a different user (id 2). -/
def txC10other : Transaction :=
  ⟨⟨2024, 5, 1⟩, "NETFLIX", Rat.divInt 1549 100, "Streaming", "Visa", 2, none, none⟩

/-- Watcher state of the C6 witness: the inbox file `stmt.csv` whose
completion marker `stmt.processed` already exists. -/
def wStateC6 : WatcherState :=
  ⟨[("stmt.csv", "RAW")], [], [], ["stmt.processed"], [], []⟩

/-- Watcher state of the C7 witness: one unmarked inbox file. -/
def wStateC7 : WatcherState :=
  ⟨[("amex_jan.csv", "RAWDATA")], [], [], [], [], []⟩

/-! ### Helper lemmas -/

/-- Frame lemma: `calculate_points` only writes the `points` and `multiplier` attributes:
every other column of the transaction is left unchanged. -/
theorem calculate_points_keeps (db : Option (List Multiplier)) (t : Transaction) :
    (calculate_points db t).transaction_date = t.transaction_date ∧
    (calculate_points db t).description = t.description ∧
    (calculate_points db t).amount = t.amount ∧
    (calculate_points db t).card = t.card ∧
    (calculate_points db t).category = t.category ∧
    (calculate_points db t).user_id = t.user_id := by
  have hA : ∀ u : Transaction,
      (applyMultiplier u).transaction_date = u.transaction_date ∧
      (applyMultiplier u).description = u.description ∧
      (applyMultiplier u).amount = u.amount ∧
      (applyMultiplier u).card = u.card ∧
      (applyMultiplier u).category = u.category ∧
      (applyMultiplier u).user_id = u.user_id := by
    intro u
    unfold applyMultiplier
    rcases u.multiplier with _ | m
    · simp
    · by_cases h : m.multiplier ≠ 0 <;> simp [h]
  unfold calculate_points
  by_cases h : isAutoPay t.description
  · simp [h]
  · simp only [h]
    rcases db with _ | mults
    · simpa using hA t
    · simp only
      by_cases hc : t.category ≠ "" ∧ t.card ≠ ""
      · simp only [if_pos hc]
        rcases hlk : lookupMultiplier mults t.category t.card with _ | m
        · simp
        · simpa using hA { t with multiplier := some m }
      · simp only [if_neg hc]
        simpa using hA t

/-- The duplicate filter only reads the candidate's four key columns, which
`calculate_points` does not touch. -/
theorem dedupMatch_calc (db : Option (List Multiplier)) (t x : Transaction) :
    dedupMatch (calculate_points db t) x = dedupMatch t x := by
  obtain ⟨h1, h2, h3, h4, -, -⟩ := calculate_points_keeps db t
  simp [dedupMatch, h1, h2, h3, h4]

/-- Candidates that agree on the four key columns produce the same duplicate
filter. -/
theorem dedupMatch_key_congr (a b x : Transaction)
    (hd : a.transaction_date = b.transaction_date) (hs : a.description = b.description)
    (ha : a.amount = b.amount) (hc : a.card = b.card) :
    dedupMatch a x = dedupMatch b x := by
  simp [dedupMatch, hd, hs, ha, hc]

/-- A transaction matches its own dedup key. -/
theorem dedupMatch_self (a : Transaction) : dedupMatch a a = true := by
  simp [dedupMatch]

/-- Helper: `upload_csv` stamps each parsed row with the uploading user's id. -/
theorem parseRow_user (uid : ℕ) (r : RawRow) (tx : Transaction)
    (h : parseRow uid r = some tx) : tx.user_id = uid := by
  unfold parseRow at h
  rcases r with ⟨d, desc, a, cat, card⟩
  rcases d with _ | d <;> rcases desc with _ | desc <;> rcases a with _ | a <;>
    rcases cat with _ | cat <;> rcases card with _ | card <;> simp at h
  rcases hd : parseDate d with _ | dt <;> rcases hf : parseFloat a with _ | amt <;>
    simp [hd, hf] at h
  simp [← h]

/-! ### C1 — points formula for a matching multiplier row -/

/-- C1 counterexample: a transaction with non-empty category and card, a
non-auto-pay description, and a matching multiplier row whose integer factor
is `0` (allowed by the claim's `m >= 0`) gets `points = None`: the final
guard of `calculate_points` tests the truthiness of `multiplier.multiplier`,
so the claimed value `round(amount) * 0 = 0` is never written. -/
theorem calculate_points_zero_mult_cex :
    (calculate_points (some [⟨"Dining", "Amex", 0⟩])
      ⟨⟨2024, 3, 1⟩, "STARBUCKS", 5, "Dining", "Amex", 1, none, none⟩).points = none ∧
    (calculate_points (some [⟨"Dining", "Amex", 0⟩])
      ⟨⟨2024, 3, 1⟩, "STARBUCKS", 5, "Dining", "Amex", 1, none, none⟩).points ≠
      some ((roundHalfEven (5 : ℚ) * (0 : ℤ) : ℤ) : ℚ) := by
  decide

/-- C1 (amended to a multiplier `m ≥ 1`): for every transaction with
non-empty category and card, a description that does not satisfy the
auto-pay exclusion, and a matching multiplier row with integer factor at
least 1, `calculate_points` sets points to exactly
`round(amount) * multiplier` — the amount rounded to the nearest integer
first (half to even), then multiplied — stored as a decimal equal to that
integer product; an amount of exactly 0 yields points 0, not None. -/
theorem calculate_points_formula (mults : List Multiplier) (t : Transaction)
    (m : Multiplier)
    (hauto : isAutoPay t.description = false)
    (hcat : t.category ≠ "") (hcard : t.card ≠ "")
    (hlk : lookupMultiplier mults t.category t.card = some m)
    (hm : 1 ≤ m.multiplier) :
    (calculate_points (some mults) t).points =
      some ((roundHalfEven t.amount * m.multiplier : ℤ) : ℚ) ∧
    (t.amount = 0 → (calculate_points (some mults) t).points = some 0) := by
  have hne : m.multiplier ≠ 0 := by omega
  have h0 : roundHalfEven (0 : ℚ) = 0 := by decide
  constructor
  · simp [calculate_points, hauto, hcat, hcard, hlk, applyMultiplier, hne]
  · intro hz
    simp [calculate_points, hauto, hcat, hcard, hlk, applyMultiplier, hne, hz, h0]

/-- C1 witness: the amended formula instantiated at an amount of exactly 0
and a `(Dining, Amex) → 3` multiplier row. -/
theorem calculate_points_formula_witness :
    (calculate_points (some [⟨"Dining", "Amex", 3⟩]) txZeroAmount).points =
      some ((roundHalfEven txZeroAmount.amount * (3 : ℤ) : ℤ) : ℚ) ∧
    (txZeroAmount.amount = 0 →
      (calculate_points (some [⟨"Dining", "Amex", 3⟩]) txZeroAmount).points = some 0) :=
  calculate_points_formula [⟨"Dining", "Amex", 3⟩] txZeroAmount ⟨"Dining", "Amex", 3⟩
    (by decide) (by decide) (by decide) (by decide) (by decide)

/-! ### C2 — auto-pay exclusion -/

/-- C2: for every transaction whose description, uppercased, contains both
`AUTO` and `PAY` as whole words, `calculate_points` sets points to None,
regardless of amount, category, card, session, or any matching multiplier
row. -/
theorem calculate_points_autopay (db : Option (List Multiplier)) (t : Transaction)
    (h : isAutoPay t.description = true) :
    (calculate_points db t).points = none := by
  simp [calculate_points, h]

/-- C2 witness: description `Monthly Auto Pay` with a matching
`(Payment, Amex) → 5` row present. -/
theorem calculate_points_autopay_witness :
    (calculate_points (some [⟨"Payment", "Amex", 5⟩]) txAutoPay).points = none :=
  calculate_points_autopay (some [⟨"Payment", "Amex", 5⟩]) txAutoPay (by decide)

/-! ### C3 — the `AUTOPAY THANK YOU` example row -/

/-- C3 counterexample: on the spec's example row
`2024-03-02, AUTOPAY THANK YOU, 250.00, Payment, Amex` with a
`(Payment, Amex) → 1` multiplier row, `calculate_points` does NOT yield
"not applicable": the regexes `\bAUTO\b` and `\bPAY\b` are whole-word
matches and `AUTOPAY` is a single word, so points are computed and equal
250. -/
theorem autopay_substring_cex :
    (calculate_points (some [⟨"Payment", "Amex", 1⟩]) txAutopayThanks).points ≠ none ∧
    (calculate_points (some [⟨"Payment", "Amex", 1⟩]) txAutopayThanks).points =
      some (250 : ℚ) := by
  decide

/-- C3 (amended): on the input row `2024-03-02, AUTOPAY THANK YOU, 250.00,
Payment, Amex` the auto-pay exclusion does not fire (AUTOPAY contains AUTO
and PAY only as substrings, not whole words), so whenever a `(Payment, Amex)`
multiplier row with nonzero factor `m ≥ 1` exists, points are computed as
`round(250.00) * m = 250 * m`; "not applicable" results only from a missing
or zero multiplier row. -/
theorem autopay_substring_points (mults : List Multiplier) (m : Multiplier)
    (hlk : lookupMultiplier mults "Payment" "Amex" = some m)
    (hm : 1 ≤ m.multiplier) :
    (calculate_points (some mults) txAutopayThanks).points =
      some ((250 * m.multiplier : ℤ) : ℚ) := by
  have hne : m.multiplier ≠ 0 := by omega
  have hauto : isAutoPay txAutopayThanks.description = false := by decide
  have hr : roundHalfEven txAutopayThanks.amount = 250 := by decide
  have hcat : txAutopayThanks.category = "Payment" := rfl
  have hcard : txAutopayThanks.card = "Amex" := rfl
  simp [calculate_points, hauto, hcat, hcard, hlk, applyMultiplier, hne, hr]

/-- C3 witness: a `(Payment, Amex) → 2` table yields points 500 on the
example row. -/
theorem autopay_substring_points_witness :
    (calculate_points (some [⟨"Payment", "Amex", 2⟩]) txAutopayThanks).points =
      some ((250 * (2 : ℤ) : ℤ) : ℚ) :=
  autopay_substring_points [⟨"Payment", "Amex", 2⟩] ⟨"Payment", "Amex", 2⟩
    (by decide) (by decide)

/-! ### C4 — dedup is idempotent across runs -/

/-- C4: importing a canonical row once persists it; importing the same row
again in a separate run leaves the store unchanged with the row counted as
skipped, and exactly one persisted row matches its key; the duplicate test
compares exactly `(transaction_date, description, amount, card)`, so the
candidate's `category` and `points` play no part in the match. -/
theorem upload_csv_idempotent (mults : List Multiplier) (store : List Transaction)
    (uid : ℕ) (r : RawRow) (tx0 : Transaction)
    (hp : parseRow uid r = some tx0)
    (hnew : ∀ t ∈ store, dedupMatch tx0 t = false) :
    upload_csv mults store uid [r] =
      .ok (store ++ [calculate_points (some mults) tx0], 1, 0) ∧
    upload_csv mults (store ++ [calculate_points (some mults) tx0]) uid [r] =
      .ok (store ++ [calculate_points (some mults) tx0], 0, 1) ∧
    ((store ++ [calculate_points (some mults) tx0]).filter (dedupMatch tx0)).length = 1 ∧
    (∀ (t : Transaction) (c : String) (p : Option ℚ),
      dedupMatch tx0 { t with category := c, points := p } = dedupMatch tx0 t) := by
  have hpred : ∀ x, dedupMatch (calculate_points (some mults) tx0) x = dedupMatch tx0 x :=
    fun x => dedupMatch_calc (some mults) tx0 x
  have hfind : store.find? (dedupMatch (calculate_points (some mults) tx0)) = none := by
    rw [List.find?_eq_none]
    intro x hx
    simp [hpred x, hnew x hx]
  have hself : dedupMatch tx0 (calculate_points (some mults) tx0) = true := by
    obtain ⟨h1, h2, h3, h4, -, -⟩ := calculate_points_keeps (some mults) tx0
    simp [dedupMatch, h1, h2, h3, h4]
  refine ⟨?_, ?_, ?_, ?_⟩
  · simp [upload_csv, uploadRows, hp, hfind]
  · have hsome :
        ((store ++ [calculate_points (some mults) tx0]).find?
          (dedupMatch (calculate_points (some mults) tx0))).isSome := by
      rw [List.find?_isSome]
      exact ⟨calculate_points (some mults) tx0, by simp,
        dedupMatch_self (calculate_points (some mults) tx0)⟩
    simp only [upload_csv, uploadRows, hp, hsome, if_true, List.append_nil]
  · rw [List.filter_append]
    have hnil : store.filter (dedupMatch tx0) = [] := by
      rw [List.filter_eq_nil_iff]
      intro a ha
      simp [hnew a ha]
    simp [hnil, hself]
  · intro t c p
    simp [dedupMatch]

/-- C4 witness: the single-row statement `rowC4` imported twice into an
initially empty store by user 7. -/
theorem upload_csv_idempotent_witness :
    upload_csv [] [] 7 [rowC4] =
      .ok ([] ++ [calculate_points (some []) txC4], 1, 0) ∧
    upload_csv [] ([] ++ [calculate_points (some []) txC4]) 7 [rowC4] =
      .ok ([] ++ [calculate_points (some []) txC4], 0, 1) ∧
    (([] ++ [calculate_points (some []) txC4]).filter (dedupMatch txC4)).length = 1 ∧
    (∀ (t : Transaction) (c : String) (p : Option ℚ),
      dedupMatch txC4 { t with category := c, points := p } = dedupMatch txC4 t) :=
  upload_csv_idempotent [] [] 7 rowC4 txC4 (by decide) (by simp)

/-! ### C5 — duplicates within one uploaded file -/

/-- C5 counterexample: a statement with two rows identical except `category`
(`Dining` vs `Restaurants`) uploaded into an empty store persists BOTH rows:
`added = 2`, `skipped = 0`, two rows in the store — not the claimed one
added and one skipped.  The session is created with `autoflush=False`, so
the duplicate query never sees the first row, which is still pending and
uncommitted when the second row is checked. -/
theorem upload_within_file_cex :
    resAdded (upload_csv [] [] 1 [rowC5a, rowC5b]) = some 2 ∧
    resSkipped (upload_csv [] [] 1 [rowC5a, rowC5b]) = some 0 ∧
    (resStore (upload_csv [] [] 1 [rowC5a, rowC5b])).map List.length = some 2 := by
  decide

/-- C5 (amended): within a single uploaded file, two rows identical on the
dedup key `(transaction_date, description, amount, card)` but differing in
category are BOTH persisted — `added` increases by 2 and `skipped` by 0 for
the pair — because rows added earlier in the same request are not yet
visible to the duplicate query; only rows committed by earlier runs cause a
skip. -/
theorem upload_within_file_both_added (mults : List Multiplier)
    (store : List Transaction) (uid : ℕ) (r1 r2 : RawRow) (tx1 tx2 : Transaction)
    (h1 : parseRow uid r1 = some tx1) (h2 : parseRow uid r2 = some tx2)
    (hd : tx2.transaction_date = tx1.transaction_date)
    (hs : tx2.description = tx1.description)
    (ha : tx2.amount = tx1.amount) (hc : tx2.card = tx1.card)
    (hnew : ∀ t ∈ store, dedupMatch tx1 t = false) :
    upload_csv mults store uid [r1, r2] =
      .ok (store ++ [calculate_points (some mults) tx1,
                     calculate_points (some mults) tx2], 2, 0) := by
  have hp1 : ∀ x, dedupMatch (calculate_points (some mults) tx1) x = dedupMatch tx1 x :=
    fun x => dedupMatch_calc (some mults) tx1 x
  have hp2 : ∀ x, dedupMatch (calculate_points (some mults) tx2) x = dedupMatch tx1 x := by
    intro x
    rw [dedupMatch_calc (some mults) tx2 x]
    exact dedupMatch_key_congr tx2 tx1 x hd hs ha hc
  have hf1 : store.find? (dedupMatch (calculate_points (some mults) tx1)) = none := by
    rw [List.find?_eq_none]
    intro x hx
    simp [hp1 x, hnew x hx]
  have hf2 : store.find? (dedupMatch (calculate_points (some mults) tx2)) = none := by
    rw [List.find?_eq_none]
    intro x hx
    simp [hp2 x, hnew x hx]
  simp [upload_csv, uploadRows, h1, h2, hf1, hf2]

/-- C5 witness: the amended statement instantiated at the spec's
`Dining`/`Restaurants` example pair on an empty store. -/
theorem upload_within_file_both_added_witness :
    upload_csv [] [] 1 [rowC5a, rowC5b] =
      .ok ([] ++ [calculate_points (some []) txC5a,
                  calculate_points (some []) txC5b], 2, 0) :=
  upload_within_file_both_added [] [] 1 rowC5a rowC5b txC5a txC5b
    (by decide) (by decide) rfl rfl rfl rfl (by simp)

/-! ### C8 — a row-parse failure aborts the whole batch -/

/-- Helper: if any remaining row fails to parse, the row loop ends in an
error, whatever the accumulated pending rows and counters. -/
theorem uploadRows_err (mults : List Multiplier) (store : List Transaction)
    (uid : ℕ) :
    ∀ (rows : List RawRow) (pending : List Transaction) (a k : ℕ),
      (∃ r ∈ rows, parseRow uid r = none) →
      ∃ e, uploadRows mults store uid rows pending a k = .error e := by
  intro rows
  induction rows with
  | nil =>
    intro pending a k h
    simp at h
  | cons r rs ih =>
    intro pending a k h
    rcases hpr : parseRow uid r with _ | tx
    · exact ⟨"Row parsing failed", by simp [uploadRows, hpr]⟩
    · obtain ⟨r', hr', hnone⟩ := h
      rcases List.mem_cons.mp hr' with hEq | hmem
      · rw [hEq] at hnone
        rw [hnone] at hpr
        cases hpr
      · have hrest : ∃ r ∈ rs, parseRow uid r = none := ⟨r', hmem, hnone⟩
        by_cases hsome :
            (store.find? (dedupMatch (calculate_points (some mults) tx))).isSome
        · obtain ⟨e, he⟩ := ih pending a (k + 1) hrest
          exact ⟨e, by simp [uploadRows, hpr, hsome, he]⟩
        · obtain ⟨e, he⟩ := ih (pending ++ [calculate_points (some mults) tx]) (a + 1) k hrest
          exact ⟨e, by simp [uploadRows, hpr, hsome, he]⟩

/-- C8: if any row of the upload fails to parse (bad date, non-numeric
amount, or missing field), the whole request errors and the transaction
store is unchanged — no row of the upload, including rows that parsed
successfully before the failing one, is committed. -/
theorem upload_csv_parse_failure (mults : List Multiplier)
    (store : List Transaction) (uid : ℕ) (rows : List RawRow)
    (h : ∃ r ∈ rows, parseRow uid r = none) :
    (∃ e, upload_csv mults store uid rows = .error e) ∧
    storeAfter mults store uid rows = store := by
  obtain ⟨e, he⟩ := uploadRows_err mults store uid rows [] 0 0 h
  have hmain : upload_csv mults store uid rows = .error e := he
  exact ⟨⟨e, hmain⟩, by simp [storeAfter, hmain]⟩

/-- C8 witness: a good row followed by a row with amount `abc`; the upload
errors and the empty store stays empty. -/
theorem upload_csv_parse_failure_witness :
    (∃ e, upload_csv [] [] 1 [rowC8good, rowC8bad] = .error e) ∧
    storeAfter [] [] 1 [rowC8good, rowC8bad] = [] :=
  upload_csv_parse_failure [] [] 1 [rowC8good, rowC8bad]
    ⟨rowC8bad, by simp, by decide⟩

/-! ### C10 — the duplicate check is not scoped to the uploading user -/

/-- C10: the duplicate query matches on `(transaction_date, description,
amount, card)` across all users' rows, while each new row is created with
the current user's id; a row already persisted by a different user makes the
current user's identical row count as skipped and never persist for them:
the store is returned unchanged. -/
theorem upload_csv_cross_user (mults : List Multiplier) (store : List Transaction)
    (uid : ℕ) (r : RawRow) (tx0 t0 : Transaction)
    (hp : parseRow uid r = some tx0)
    (ht : t0 ∈ store)
    (hd : t0.transaction_date = tx0.transaction_date)
    (hs : t0.description = tx0.description)
    (ha : t0.amount = tx0.amount) (hc : t0.card = tx0.card)
    (_hu : t0.user_id ≠ uid) :
    upload_csv mults store uid [r] = .ok (store, 0, 1) ∧ tx0.user_id = uid := by
  have hm : dedupMatch (calculate_points (some mults) tx0) t0 = true := by
    rw [dedupMatch_calc]
    simp [dedupMatch, hd, hs, ha, hc]
  have hsome : (store.find? (dedupMatch (calculate_points (some mults) tx0))).isSome := by
    rw [List.find?_isSome]
    exact ⟨t0, ht, hm⟩
  exact ⟨by simp [upload_csv, uploadRows, hp, hsome], parseRow_user uid r tx0 hp⟩

/-- C10 witness: user 2 already holds the `NETFLIX 15.49 Visa` row; user 1's
identical upload is skipped and nothing is persisted for user 1. -/
theorem upload_csv_cross_user_witness :
    upload_csv [] [txC10other] 1 [rowC10] = .ok ([txC10other], 0, 1) ∧
    txC10.user_id = 1 :=
  upload_csv_cross_user [] [txC10other] 1 rowC10 txC10 txC10other
    (by decide) (by simp) rfl rfl rfl rfl (by decide)

/-! ### C6 — completion marker makes re-processing a no-op -/

/-- C6: when the completion marker (the sibling file sharing the stem with
the fixed `.processed` suffix) exists, `process_file` performs no side
effect at all: the returned state equals the input state in every component
— no normalization request is recorded, no file is moved or written, no
marker is added and no log entry is appended. -/
theorem process_file_marker (norm : String → String → Except String String)
    (time : ℕ) (s : WatcherState) (name : String)
    (h : s.markers.contains (lockName name) = true) :
    process_file norm time s name = s := by
  unfold process_file
  rw [if_pos h]

/-- C6 witness: `stmt.csv` with its marker `stmt.processed` present; the
state is returned untouched. -/
theorem process_file_marker_witness :
    process_file (fun _ _ => .ok "x") 0 wStateC6 "stmt.csv" = wStateC6 :=
  process_file_marker (fun _ _ => .ok "x") 0 wStateC6 "stmt.csv" (by decide)

/-! ### C7 — failures archive the file and never propagate -/

/-- C7: for an unmarked inbox file, if any step of the pipeline fails — the
normalization call, the first-line header sanity gate, or validation — then
`process_file` moves the original file unchanged into the failed archive
under its original name, appends exactly one `failed` log entry carrying the
failure message, creates no completion marker, and returns normally, so the
poll cycle continues with the remaining files. -/
theorem process_file_failure (norm : String → String → Except String String)
    (time : ℕ) (s : WatcherState) (name raw msg : String) (rest : List String)
    (hm : s.markers.contains (lockName name) = false)
    (hf : lookupFile s.inbox name = some raw)
    (he : runPipeline norm raw (cardLabel name) = .error msg) :
    process_file norm time s name =
      { s with
        inbox := removeFile s.inbox name,
        failedDir := s.failedDir ++ [(name, raw)],
        log := s.log ++ [⟨time, name, "failed", msg⟩],
        calls := s.calls ++ [(raw, cardLabel name)] } ∧
    pollOver norm time s (name :: rest) =
      pollOver norm time (process_file norm time s name) rest := by
  constructor
  · unfold process_file
    rw [if_neg (by simpa using hm)]
    simp only [hf, he]
  · rfl

/-- C7 witness: the normalization call raises `connection refused` on
`amex_jan.csv`; the raw file lands in the failed archive with one `failed`
log line and no marker, and the cycle proceeds to `bofa_feb.csv`. -/
theorem process_file_failure_witness :
    process_file (fun _ _ => .error "connection refused") 5 wStateC7 "amex_jan.csv" =
      { wStateC7 with
        inbox := removeFile wStateC7.inbox "amex_jan.csv",
        failedDir := wStateC7.failedDir ++ [("amex_jan.csv", "RAWDATA")],
        log := wStateC7.log ++ [⟨5, "amex_jan.csv", "failed", "connection refused"⟩],
        calls := wStateC7.calls ++ [("RAWDATA", cardLabel "amex_jan.csv")] } ∧
    pollOver (fun _ _ => .error "connection refused") 5 wStateC7
        ["amex_jan.csv", "bofa_feb.csv"] =
      pollOver (fun _ _ => .error "connection refused") 5
        (process_file (fun _ _ => .error "connection refused") 5 wStateC7 "amex_jan.csv")
        ["bofa_feb.csv"] :=
  process_file_failure (fun _ _ => .error "connection refused") 5 wStateC7
    "amex_jan.csv" "RAWDATA" "connection refused" ["bofa_feb.csv"]
    (by decide) (by decide) (by decide)

/-! ### C9 — validator accepts exactly the header supersets -/

/-- Helper: the line splitter never returns an empty list of lines. -/
theorem splitNl_ne_nil (cs : List Char) : ∀ acc, splitNl cs acc ≠ [] := by
  induction cs with
  | nil => intro acc; simp [splitNl]
  | cons c rest ih =>
    intro acc
    by_cases h : c = '\n'
    · subst h
      by_cases hr : rest.isEmpty <;> simp [splitNl, hr]
    · rw [show splitNl (c :: rest) acc = splitNl rest (c :: acc) by
        conv_lhs => rw [splitNl.eq_def]
        simp [h]]
      exact ih (c :: acc)

/-- Helper: a nonempty input has at least one line. -/
theorem splitlines_ne_nil (s : String) (h : s ≠ "") : splitlines s ≠ [] := by
  obtain ⟨data⟩ := s
  cases data with
  | nil => exact absurd rfl h
  | cons c cs =>
    show (splitNl (normEols (c :: cs)) []).map String.mk ≠ []
    intro hcontr
    exact splitNl_ne_nil _ [] (by simpa using hcontr)

/-- Helper: a nonempty input has parsed header fields. -/
theorem fieldnames_some (content : String) (h : content ≠ "") :
    ∃ fs, fieldnames content = some fs := by
  have hne := splitlines_ne_nil content h
  rcases hs : splitlines content with _ | ⟨l, ls⟩
  · exact absurd hs hne
  · exact ⟨(splitOnChar ',' l.toList).map String.mk, by simp [fieldnames, firstLine, hs]⟩

/-- C9 counterexample: on the empty input — which misses all five canonical
headers — `validate_csv` does not return false: `reader.fieldnames` is
`None` and `set(None)` raises `TypeError`, modelled as `none`. -/
theorem validate_csv_empty_cex :
    validate_csv "" = none ∧ validate_csv "" ≠ some false := by
  decide

/-- C9 (amended to inputs with at least one line): for every nonempty input,
the parsed header fields of the first line exist and `validate_csv` returns
true exactly when all five canonical header names — matched with exact case,
in any order and possibly alongside extra headers — appear among them, and
false when at least one is missing; on the empty input it instead raises
`TypeError`. -/
theorem validate_csv_iff (content : String) (h : content ≠ "") :
    ∃ fs, fieldnames content = some fs ∧
      (validate_csv content = some true ↔ ∀ hd ∈ STANDARD_HEADERS, hd ∈ fs) := by
  obtain ⟨fs, hfs⟩ := fieldnames_some content h
  refine ⟨fs, hfs, ?_⟩
  simp [validate_csv, hfs, List.all_eq_true, List.elem_iff]

/-- C9 witness: a permutation of the five canonical headers with an extra
column is accepted. -/
theorem validate_csv_iff_witness :
    ∃ fs, fieldnames "card,amount,transaction_date,description,category,extra" = some fs ∧
      (validate_csv "card,amount,transaction_date,description,category,extra" = some true ↔
        ∀ hd ∈ STANDARD_HEADERS, hd ∈ fs) :=
  validate_csv_iff "card,amount,transaction_date,description,category,extra" (by decide)

end AutoFinances
